import Mathlib

/-!
Verification of the ML-From-Scratch repository: a shallow embedding of
`mlfromscratch/supervised_learning/multilayer_perceptron.py` (DenseLayer,
DropoutLayer, MultilayerPerceptron) and
`supervised_learning/gradient_boosting_regressor.py`
(GradientBoostingRegressor), with theorems settling the specification's
claims about them.

Numeric arrays are embedded as lists of lists of rationals.  The external
collaborators (activation, loss, optimizer and shuffling strategies, and
the regression trees of the boosting ensemble) are passed as function
parameters, matching the specification's treatment of them as pluggable
strategies with a known contract.  NumPy's global random state is embedded
as an explicit stream `rng : Nat -> Rat` together with a consumption
counter that is threaded through every forward pass.
-/

set_option maxRecDepth 10000

/-- A 2-D numeric array: a list of rows. -/
abbrev Mat := List (List ℚ)

/-- Dot product of two vectors (`np.dot` on 1-D slices). -/
def dotVec (u v : List ℚ) : ℚ := (List.zipWith (· * ·) u v).sum

/-- Matrix transpose (`.T`). -/
def matTranspose (m : Mat) : Mat :=
  match m with
  | [] => []
  | r :: _ => (List.range r.length).map (fun j => m.map (fun row => row.getD j 0))

/-- Matrix product (`a.dot(b)`). -/
def matMul (a b : Mat) : Mat :=
  a.map (fun row => (matTranspose b).map (fun col => dotVec row col))

/-- Elementwise product (`a * b` on same-shape arrays). -/
def matHadamard (a b : Mat) : Mat :=
  List.zipWith (fun r s => List.zipWith (· * ·) r s) a b

/-- Elementwise difference (`a - b`). -/
def matSub (a b : Mat) : Mat :=
  List.zipWith (fun r s => List.zipWith (· - ·) r s) a b

/-- Scalar times matrix (`c * a` with a scalar `c`, broadcast elementwise). -/
def matScale (c : ℚ) (a : Mat) : Mat := a.map (List.map (fun x => c * x))

/-- Add a `1 x n` row array to every row of `a` (NumPy row broadcasting,
as in `X.dot(W) + wb`). -/
def matAddRow (a : Mat) (r : Mat) : Mat :=
  a.map (fun row => List.zipWith (· + ·) row (r.headD []))

/-- Column sums kept as a `1 x n` array
(`np.sum(g, axis=0, keepdims=True)`). -/
def sumAxis0 (a : Mat) : Mat :=
  match a with
  | [] => [[]]
  | r :: rs => [rs.foldl (fun acc row => List.zipWith (· + ·) acc row) r]

/-- Mean over all elements (`np.mean`). -/
def matMean (a : Mat) : ℚ :=
  (a.map List.sum).sum / (((a.map List.length).sum : ℕ) : ℚ)

/-- Truthiness test of an array (`arr.any()`): some element is nonzero. -/
def matAny (a : Mat) : Bool := a.any (fun r => r.any (fun x => decide (x ≠ 0)))

/-- Row selection by an index list (`X_[idx]` with `idx` an index array). -/
def selectRows (m : Mat) (idx : List ℕ) : Mat := idx.map (fun i => m.getD i [])

/-- A fully-connected layer (`DenseLayer`).  The activation strategy is
stored as its `function`/`gradient` pair, and the two per-parameter
optimizer instances (`W_opt`, `wb_opt`) as their `update` operations
`(params, grad) -> new_params`, matching the external strategy contracts. -/
structure DenseLayer where
  n_inputs : ℕ
  n_units : ℕ
  act : Mat → Mat
  actGrad : Mat → Mat
  W : Mat
  wb : Mat
  layer_input : Option Mat
  W_update : Mat → Mat → Mat
  wb_update : Mat → Mat → Mat

/-- The pre-activation value `layer_input.dot(self.W) + self.wb`. -/
def DenseLayer.preAct (l : DenseLayer) (inp : Mat) : Mat :=
  matAddRow (matMul inp l.W) l.wb

/-- `DenseLayer.forward_pass`: caches the input, returns
`activation.function(layer_input.dot(W) + wb)`.  The `training` flag is
accepted and ignored, as in the source. -/
def DenseLayer.forward_pass (l : DenseLayer) (layer_input : Mat) (_training : Bool) :
    DenseLayer × Mat :=
  ({ l with layer_input := some layer_input }, l.act (l.preAct layer_input))

/-- The local gradient at the layer:
`acc_grad * activation.gradient(layer_input.dot(W) + wb)`. -/
def DenseLayer.localGrad (l : DenseLayer) (acc_grad : Mat) : Mat :=
  matHadamard acc_grad (l.actGrad (l.preAct (l.layer_input.getD [])))

/-- `DenseLayer.backward_pass`, line by line from the source: computes the
local gradient, the parameter gradients `grad_w = layer_input.T.dot(layer_grad)`
and `grad_wb = sum(layer_grad, axis=0)`, replaces `W` and `wb` with their
optimizer updates, and only then computes the gradient returned for the
previous layer as `layer_grad.dot(self.W.T)` — reading the freshly
updated `self.W`. -/
def DenseLayer.backward_pass (l : DenseLayer) (acc_grad : Mat) : DenseLayer × Mat :=
  let layer_grad := l.localGrad acc_grad
  let inp := l.layer_input.getD []
  let grad_w := matMul (matTranspose inp) layer_grad
  let grad_wb := sumAxis0 layer_grad
  let W2 := l.W_update l.W grad_w
  let wb2 := l.wb_update l.wb grad_wb
  ({ l with W := W2, wb := wb2 }, matMul layer_grad (matTranspose W2))

/-- A dropout layer (`DropoutLayer`): drop probability `p` and the cached
mask `_mask` (`None` until a training-mode forward pass draws one). -/
structure DropoutLayer where
  p : ℚ
  _mask : Option Mat
deriving DecidableEq

/-- `DropoutLayer.__init__`: stores `p` unchecked, `_mask = None`. -/
def DropoutLayer.init (p : ℚ) : DropoutLayer := ⟨p, none⟩

/-- Draw a boolean mask of the shape of `X`
(`np.random.uniform(size=X.shape) > self.p`), consuming one stream value
per element; entries are kept as `1`/`0` so the mask multiplies like a
NumPy boolean array.  Returns the mask and the advanced counter. -/
def drawMask (X : Mat) (p : ℚ) (rng : ℕ → ℚ) (ctr : ℕ) : Mat × ℕ :=
  match X with
  | [] => ([], ctr)
  | row :: rest =>
    let mrow := (List.range row.length).map (fun i => if p < rng (ctr + i) then (1 : ℚ) else 0)
    let r := drawMask rest p rng (ctr + row.length)
    (mrow :: r.1, r.2)

/-- `DropoutLayer.forward_pass`: in training mode draws a fresh mask,
caches it, and returns `X * mask`; otherwise returns `X * (1 - p)` with
the layer untouched and no randomness consumed. -/
def DropoutLayer.forward_pass (l : DropoutLayer) (X : Mat) (training : Bool)
    (rng : ℕ → ℚ) (ctr : ℕ) : DropoutLayer × Mat × ℕ :=
  if training then
    let r := drawMask X l.p rng ctr
    ({ l with _mask := some r.1 }, matHadamard X r.1, r.2)
  else
    (l, matScale (1 - l.p) X, ctr)

/-- `DropoutLayer.backward_pass`: `acc_grad * self._mask`. -/
def DropoutLayer.backward_pass (l : DropoutLayer) (acc_grad : Mat) : DropoutLayer × Mat :=
  (l, matHadamard acc_grad (l._mask.getD []))

/-- The layer capability the network dispatches over. -/
inductive Layer
  | dense : DenseLayer → Layer
  | dropout : DropoutLayer → Layer

/-- Forward dispatch over the two layer variants, threading the random
stream counter (only dropout layers consume randomness). -/
def Layer.forward : Layer → Mat → Bool → (ℕ → ℚ) → ℕ → Layer × Mat × ℕ
  | .dense d, X, t, _, c =>
    let r := d.forward_pass X t
    (.dense r.1, r.2, c)
  | .dropout dl, X, t, rng, c =>
    let r := dl.forward_pass X t rng c
    (.dropout r.1, r.2.1, r.2.2)

/-- Backward dispatch over the two layer variants. -/
def Layer.backward : Layer → Mat → Layer × Mat
  | .dense d, g =>
    let r := d.backward_pass g
    (.dense r.1, r.2)
  | .dropout dl, g =>
    let r := dl.backward_pass g
    (.dropout r.1, r.2)

/-- Gradient-descent optimizer update with learning rate 1
(`w - 1 * grad`), a concrete instance of the optimizer contract used in
concrete scenarios. -/
def gd1 : Mat → Mat → Mat := fun w g => matSub w g

/-- Identity activation function. -/
def idAct : Mat → Mat := fun m => m

/-- Gradient of the identity activation: all-ones of the input shape. -/
def onesLike : Mat → Mat := fun m => m.map (fun r => r.map (fun _ => (1 : ℚ)))

/-- An all-zero random stream, used where no randomness is consumed. -/
def rng0 : ℕ → ℚ := fun _ => 0

/-- The Dense layer of the specification's concrete C5 scenario:
`n_inputs=2, n_units=1, W=[[1],[1]]`, bias `0`, identity activation,
gradient-descent updates with learning rate 1, nothing cached yet. -/
def denseC5 : DenseLayer :=
  ⟨2, 1, idAct, onesLike, [[1], [1]], [[0]], none, gd1, gd1⟩

/-- A Dense layer for exhibiting the C1 divergence: same as the C5
scenario but with cached input `[[1, 0]]`. -/
def denseC1 : DenseLayer :=
  ⟨2, 1, idAct, onesLike, [[1], [1]], [[0]], some [[1, 0]], gd1, gd1⟩

/-- Claim C1: the gradient `backward_pass` returns for the previous layer
is claimed to be `local_grad · W.T` with the pre-update `W`.  Evaluating
the embedded code on a concrete initialized layer (`W=[[1],[1]]`, cached
input `[[1,0]]`, identity activation, gradient-descent update with
learning rate 1) and incoming gradient `[[1]]`: the code returns
`[[0, 1]]`, computed from the post-update weights `[[0],[1]]`, while
`local_grad · W.T` with the pre-update `W` is `[[1, 1]]`.  The code
contradicts the claim: the weight update leaks into the propagated
gradient. -/
theorem c1_backward_uses_postupdate_weights :
    (denseC1.backward_pass [[1]]).2 = [[0, 1]] ∧
    matMul (denseC1.localGrad [[1]]) (matTranspose denseC1.W) = [[1, 1]] ∧
    (denseC1.backward_pass [[1]]).2 ≠ matMul (denseC1.localGrad [[1]]) (matTranspose denseC1.W) := by
  norm_num [denseC1, DenseLayer.backward_pass, DenseLayer.localGrad, DenseLayer.preAct,
    matMul, matTranspose, matHadamard, matAddRow, sumAxis0, dotVec, matSub, gd1, idAct,
    onesLike, List.range_succ]

/-- Claim C5: in the specification's concrete scenario (`n_inputs=2,
n_units=1, W=[[1],[1]]`, bias 0, identity activation), `forward_pass` on
`[[1,2]]` returns `[[3]]` and the weight gradient reported for `[[1]]`
is `[[1],[2]]` — both as claimed — but the gradient propagated to the
previous layer is `layer_grad.dot(W.T)` with the *updated* `W`: with the
gradient-descent update of rate 1 the new weights are `[[0],[-1]]` and
the code returns `[[0,-1]]`, not the claimed `[[1,1]]`. -/
theorem c5_concrete_scenario_eval :
    (denseC5.forward_pass [[1, 2]] true).2 = [[3]] ∧
    matMul (matTranspose [[1, 2]]) ((denseC5.forward_pass [[1, 2]] true).1.localGrad [[1]]) =
      [[1], [2]] ∧
    ((denseC5.forward_pass [[1, 2]] true).1.backward_pass [[1]]).1.W = [[0], [-1]] ∧
    ((denseC5.forward_pass [[1, 2]] true).1.backward_pass [[1]]).2 = [[0, -1]] ∧
    ((denseC5.forward_pass [[1, 2]] true).1.backward_pass [[1]]).2 ≠ [[1, 1]] := by
  norm_num [denseC5, DenseLayer.forward_pass, DenseLayer.backward_pass, DenseLayer.localGrad,
    DenseLayer.preAct, matMul, matTranspose, matHadamard, matAddRow, sumAxis0, dotVec,
    matSub, gd1, idAct, onesLike, List.range_succ]

/-- Claim C8: a Dropout layer's `forward_pass` with `training = false`
returns `X * (1 - p)` elementwise, leaves the layer untouched (no mask is
drawn or cached) and consumes no randomness; in particular with `p = 1`
on input `[[5, 5]]` it returns `[[0, 0]]`. -/
theorem c8_dropout_inference_scaling :
    (∀ (l : DropoutLayer) (X : Mat) (rng : ℕ → ℚ) (ctr : ℕ),
      l.forward_pass X false rng ctr =
        (l, X.map (List.map (fun x => (1 - l.p) * x)), ctr)) ∧
    ((DropoutLayer.init 1).forward_pass [[5, 5]] false rng0 0).2.1 = [[0, 0]] := by
  refine ⟨fun l X rng ctr => rfl, ?_⟩
  norm_num [DropoutLayer.forward_pass, DropoutLayer.init, matScale]

/-- Chained forward pass over a layer list (`MultilayerPerceptron._forward_pass`
body): the output of each layer becomes the input of the next. -/
def forwardLayers : List Layer → Mat → Bool → (ℕ → ℚ) → ℕ → List Layer × Mat × ℕ
  | [], X, _, _, c => ([], X, c)
  | l :: ls, X, t, rng, c =>
    let r := l.forward X t rng c
    let s := forwardLayers ls r.2.1 t rng r.2.2
    (r.1 :: s.1, s.2.1, s.2.2)

/-- Chained backward pass over a layer list
(`MultilayerPerceptron._backward_pass`): propagates the accumulated
gradient through `reversed(self.layers)`, updating each layer. -/
def backwardLayers : List Layer → Mat → List Layer × Mat
  | [], g => ([], g)
  | l :: ls, g =>
    let s := backwardLayers ls g
    let r := l.backward s.2
    (r.1 :: s.1, r.2)

/-- Section sizes of `np.array_split` of a length-`l` array into `k`
sections: `l % k` sections of size `l / k + 1` followed by `k - l % k`
sections of size `l / k`. -/
def splitSizes (l k : ℕ) : List ℕ :=
  List.replicate (l % k) (l / k + 1) ++ List.replicate (k - l % k) (l / k)

/-- Cut a list into consecutive chunks of the given sizes. -/
def chunksBy {α : Type} : List ℕ → List α → List (List α)
  | [], _ => []
  | s :: rest, xs => xs.take s :: chunksBy rest (xs.drop s)

/-- `np.array_split(xs, k)`: `k` contiguous sections whose sizes differ by
at most one.  (NumPy raises for `k = 0`; that case is guarded at the call
site in `fit`, matching the source.) -/
def arraySplit {α : Type} (xs : List α) (k : ℕ) : List (List α) :=
  chunksBy (splitSizes xs.length k) xs

/-- The index partition `fit` iterates over each epoch:
`np.array_split(np.arange(n_samples), n_batches)`. -/
def fitSplits (n_samples n_batches : ℕ) : List (List ℕ) :=
  arraySplit (List.range n_samples) n_batches

/-- Errors raised by `MultilayerPerceptron.fit` on the source's failure
paths. -/
inductive FitError
  | zeroDivision
  | arraySplitZeroSections
deriving DecidableEq

/-- The network state (`MultilayerPerceptron`). -/
structure MLP where
  n_iterations : ℕ
  batch_size : ℕ
  layers : List Layer
  errors_training : List ℚ
  errors_validation : List ℚ
  X_val : Mat
  y_val : Mat

/-- `MultilayerPerceptron.__init__`: stores the iteration count and batch
size unchecked with empty layer list and error histories.  With
`validation_data` supplied, stores `X_val` and the one-hot conversion of
`y_val`; otherwise `X_val` and `y_val` are `np.empty([])`, a 0-d array
holding one uninitialized value, embedded as the single unspecified entry
`garbage`.  The one-hot conversion `categorical_to_binary` is an external
utility passed as `oneHot`. -/
def MLP.init (n_iterations batch_size : ℕ) (validation_data : Option (Mat × List ℤ))
    (oneHot : List ℤ → Mat) (garbage : ℚ) : MLP :=
  match validation_data with
  | some v => ⟨n_iterations, batch_size, [], [], [], v.1, oneHot v.2⟩
  | none => ⟨n_iterations, batch_size, [], [], [], [[garbage]], [[garbage]]⟩

/-- `MultilayerPerceptron.add`: appends a layer.  (The source also calls
`layer.initialize(optimizer)` for Dense layers, which draws the random
initial weights; here Dense layers are built with their weights and
optimizer update operations already in place, covering every possible
initialization.) -/
def MLP.add (net : MLP) (l : Layer) : MLP :=
  { net with layers := net.layers ++ [l] }

/-- One mini-batch of `fit`'s inner loop: select the batch rows, forward
pass with `training = true`, accumulate the mean batch loss, and run the
backward pass (which updates every layer).  Returns the updated network,
the accumulated training error, and the advanced random counter. -/
def MLP.processBatch (net : MLP) (lossFn lossGrad : Mat → Mat → Mat) (Xs ys : Mat)
    (idx : List ℕ) (rng : ℕ → ℚ) (ctr : ℕ) (acc : ℚ) : MLP × ℚ × ℕ :=
  let X_batch := selectRows Xs idx
  let y_batch := selectRows ys idx
  let f := forwardLayers net.layers X_batch true rng ctr
  let loss := matMean (lossFn y_batch f.2.1)
  let b := backwardLayers f.1 (lossGrad y_batch f.2.1)
  ({ net with layers := b.1 }, acc + loss, f.2.2)

/-- Fold of `processBatch` over the epoch's index splits. -/
def MLP.processBatches (net : MLP) (lossFn lossGrad : Mat → Mat → Mat) (Xs ys : Mat)
    (idxs : List (List ℕ)) (rng : ℕ → ℚ) (ctr : ℕ) (acc : ℚ) : MLP × ℚ × ℕ :=
  match idxs with
  | [] => (net, acc, ctr)
  | idx :: rest =>
    let r := net.processBatch lossFn lossGrad Xs ys idx rng ctr acc
    MLP.processBatches r.1 lossFn lossGrad Xs ys rest rng r.2.2 r.2.1

/-- The per-epoch validation step of `fit`: when `self.X_val.any()` is
true, runs `self._forward_pass(self.X_val)` — with `training` left at its
default `True`, as in the source — and appends the mean validation loss. -/
def MLP.validationStep (net : MLP) (lossFn : Mat → Mat → Mat) (rng : ℕ → ℚ) (ctr : ℕ) :
    MLP × ℕ :=
  if matAny net.X_val = true then
    let f := forwardLayers net.layers net.X_val true rng ctr
    ({ net with
        layers := f.1,
        errors_validation := net.errors_validation ++ [matMean (lossFn net.y_val f.2.1)] },
      f.2.2)
  else (net, ctr)

/-- Modelled from the spec: the validation step as the specification
describes it — the extra forward pass runs with `training = false`, "so
Dropout layers apply inference-mode scaling" and no mask is drawn or
cached.  Used only to compare against the source's `validationStep`. -/
def MLP.validationStepSpec (net : MLP) (lossFn : Mat → Mat → Mat) (rng : ℕ → ℚ) (ctr : ℕ) :
    MLP × ℕ :=
  if matAny net.X_val = true then
    let f := forwardLayers net.layers net.X_val false rng ctr
    ({ net with
        layers := f.1,
        errors_validation := net.errors_validation ++ [matMean (lossFn net.y_val f.2.1)] },
      f.2.2)
  else (net, ctr)

/-- One epoch of `fit`: shuffle the data jointly (the shuffling utility is
the external collaborator `sh`), fold over the
`np.array_split(np.arange(n_samples), n_batches)` index partition, record
the epoch's mean training loss, then run the validation step. -/
def MLP.runEpoch (net : MLP) (lossFn lossGrad : Mat → Mat → Mat)
    (sh : Mat → Mat → Mat × Mat) (Xb yb : Mat) (n_samples n_batches : ℕ)
    (rng : ℕ → ℚ) (ctr : ℕ) : MLP × ℕ :=
  let sxy := sh Xb yb
  let r := net.processBatches lossFn lossGrad sxy.1 sxy.2 (fitSplits n_samples n_batches) rng ctr 0
  let net2 := { r.1 with errors_training := r.1.errors_training ++ [r.2.1 / (n_batches : ℚ)] }
  net2.validationStep lossFn rng r.2.2

/-- The epoch loop of `fit`.  Each epoch first evaluates the index
partition; `np.array_split` with `0` sections raises, so with
`n_batches = 0` the first epoch fails (and with zero epochs the loop
body, and hence the failure, never runs). -/
def MLP.fitLoop (lossFn lossGrad : Mat → Mat → Mat) (sh : Mat → Mat → Mat × Mat)
    (Xb yb : Mat) (n_samples n_batches : ℕ) (rng : ℕ → ℚ) :
    ℕ → MLP → ℕ → Except FitError (MLP × ℕ)
  | 0, net, _ctr => .ok (net, _ctr)
  | Nat.succ k, net, ctr =>
    if n_batches = 0 then .error .arraySplitZeroSections
    else
      let r := net.runEpoch lossFn lossGrad sh Xb yb n_samples n_batches rng ctr
      MLP.fitLoop lossFn lossGrad sh Xb yb n_samples n_batches rng k r.1 r.2

/-- `MultilayerPerceptron.fit`: one-hot encodes the labels, computes
`n_batches = int(n_samples / batch_size)` — a `ZeroDivisionError` when
`batch_size` is zero — then runs `n_iterations` epochs. -/
def MLP.fit (net : MLP) (X : Mat) (y : List ℤ) (oneHot : List ℤ → Mat)
    (lossFn lossGrad : Mat → Mat → Mat) (sh : Mat → Mat → Mat × Mat)
    (rng : ℕ → ℚ) : Except FitError MLP :=
  let yb := oneHot y
  let n_samples := X.length
  if net.batch_size = 0 then .error .zeroDivision
  else
    (MLP.fitLoop lossFn lossGrad sh X yb n_samples (n_samples / net.batch_size) rng
      net.n_iterations net 0).map Prod.fst

/-- First index of the maximum of a row, earliest maximum wins
(`np.argmax` on one row); `best`/`bestIdx` track the running maximum. -/
def argmaxGo (best : ℚ) (bestIdx i : ℕ) : List ℚ → ℕ
  | [] => bestIdx
  | x :: xs => if best < x then argmaxGo x i (i + 1) xs else argmaxGo best bestIdx (i + 1) xs

/-- `np.argmax(output, axis=1)`: per-row argmax. -/
def argmaxAxis1 (m : Mat) : List ℕ :=
  m.map (fun row =>
    match row with
    | [] => 0
    | x :: xs => argmaxGo x 0 1 xs)

/-- `MultilayerPerceptron.predict`: forward pass with `training = false`,
then the per-row argmax.  The source mutates `self`; the updated network
is returned alongside the predicted labels and the (unchanged) random
counter. -/
def MLP.predict (net : MLP) (X : Mat) (rng : ℕ → ℚ) (ctr : ℕ) : MLP × List ℕ × ℕ :=
  let f := forwardLayers net.layers X false rng ctr
  ({ net with layers := f.1 }, argmaxAxis1 f.2.1, f.2.2)

/-- The Dense layers' cached inputs, in network order. -/
def denseCaches (ls : List Layer) : List (Option Mat) :=
  ls.filterMap (fun l =>
    match l with
    | .dense d => some d.layer_input
    | .dropout _ => none)

/-- The Dense layers' parameter tensors `(W, wb)`, in network order. -/
def denseParamsOf (ls : List Layer) : List (Mat × Mat) :=
  ls.filterMap (fun l =>
    match l with
    | .dense d => some (d.W, d.wb)
    | .dropout _ => none)

/-- The Dropout layers' cached masks, in network order. -/
def dropoutMasks (ls : List Layer) : List (Option Mat) :=
  ls.filterMap (fun l =>
    match l with
    | .dense _ => none
    | .dropout d => some d._mask)

/-- A layer with its input cache cleared: the projection of layer state
that `predict` is expected to preserve. -/
def Layer.clearCache : Layer → Layer
  | .dense d => .dense { d with layer_input := none }
  | .dropout dl => .dropout dl

/-- `chunksBy` produces one chunk per requested size. -/
theorem chunksBy_length {α : Type} (sizes : List ℕ) (xs : List α) :
    (chunksBy sizes xs).length = sizes.length := by
  induction sizes generalizing xs with
  | nil => rfl
  | cons s rest ih => simp [chunksBy, ih]

/-- Joining the chunks gives back the first `sizes.sum` elements. -/
theorem chunksBy_join {α : Type} (sizes : List ℕ) :
    ∀ xs : List α, (chunksBy sizes xs).flatten = xs.take sizes.sum := by
  induction sizes with
  | nil => intro xs; simp [chunksBy]
  | cons s rest ih =>
    intro xs
    simp only [chunksBy, List.flatten_cons, ih (xs.drop s), List.sum_cons]
    rw [List.take_add]

/-- The `np.array_split` section sizes sum to the array length. -/
theorem splitSizes_sum (l k : ℕ) (hk : k ≠ 0) : (splitSizes l k).sum = l := by
  have hr : l % k < k := Nat.mod_lt _ (Nat.pos_of_ne_zero hk)
  have e2 : (k - l % k) * (l / k) = k * (l / k) - l % k * (l / k) := Nat.sub_mul ..
  have e3 : l % k * (l / k) ≤ k * (l / k) := Nat.mul_le_mul_right _ hr.le
  have e4 : l % k * (l / k) + (k * (l / k) - l % k * (l / k)) = k * (l / k) :=
    Nat.add_sub_cancel' e3
  have e5 := Nat.div_add_mod l k
  calc (splitSizes l k).sum
      = l % k * (l / k + 1) + (k - l % k) * (l / k) := by
        simp [splitSizes, List.sum_append, List.sum_replicate, smul_eq_mul]
    _ = (l % k * (l / k) + l % k) + (k * (l / k) - l % k * (l / k)) := by
        rw [Nat.mul_add, Nat.mul_one, e2]
    _ = l % k + (l % k * (l / k) + (k * (l / k) - l % k * (l / k))) := by
        rw [Nat.add_comm (l % k * (l / k)) (l % k), Nat.add_assoc]
    _ = l % k + k * (l / k) := by rw [e4]
    _ = l := by rw [Nat.add_comm]; exact e5

/-- `np.array_split` with a positive section count produces exactly `k`
sections. -/
theorem arraySplit_length {α : Type} (xs : List α) (k : ℕ) (hk : k ≠ 0) :
    (arraySplit xs k).length = k := by
  have hr : xs.length % k < k := Nat.mod_lt _ (Nat.pos_of_ne_zero hk)
  simp [arraySplit, chunksBy_length, splitSizes]
  omega

/-- `np.array_split` with a positive section count loses no element:
the concatenation of the sections is the original array. -/
theorem arraySplit_join {α : Type} (xs : List α) (k : ℕ) (hk : k ≠ 0) :
    (arraySplit xs k).flatten = xs := by
  rw [arraySplit, chunksBy_join, splitSizes_sum _ _ hk, List.take_length]

/-- Claim C6: with `batch_size ≤ n_samples` (and a positive batch size),
each epoch of `fit` partitions the sample indices into exactly
`n_samples / batch_size` contiguous splits whose concatenation, in
order, is the full index range — so remainder samples are distributed
across splits rather than dropped, and every sample index lands in
exactly one batch. -/
theorem c6_fit_batch_partition (n bs : ℕ) (hbs : 0 < bs) (hn : bs ≤ n) :
    (fitSplits n (n / bs)).length = n / bs ∧
    (fitSplits n (n / bs)).flatten = List.range n := by
  have hk : n / bs ≠ 0 := by have := Nat.div_pos hn hbs; omega
  constructor
  · rw [fitSplits, arraySplit_length _ _ hk]
  · rw [fitSplits, arraySplit_join _ _ hk]

/-- Witness for C6 at `n_samples = 5`, `batch_size = 2`: two splits,
`[0, 1, 2]` and `[3, 4]`, jointly covering the range. -/
theorem c6_fit_batch_partition_witness :
    0 < 2 ∧ 2 ≤ 5 ∧
      ((fitSplits 5 (5 / 2)).length = 5 / 2 ∧ (fitSplits 5 (5 / 2)).flatten = List.range 5) :=
  ⟨by decide, by decide, c6_fit_batch_partition 5 2 (by decide) (by decide)⟩

/-- Unfolding `denseParamsOf` over a Dense head. -/
theorem denseParamsOf_cons_dense (d : DenseLayer) (ls : List Layer) :
    denseParamsOf (Layer.dense d :: ls) = (d.W, d.wb) :: denseParamsOf ls := rfl

/-- Unfolding `denseParamsOf` over a Dropout head. -/
theorem denseParamsOf_cons_dropout (dl : DropoutLayer) (ls : List Layer) :
    denseParamsOf (Layer.dropout dl :: ls) = denseParamsOf ls := rfl

/-- A forward pass never touches any Dense layer's parameters, in either
mode: `W` and `wb` are read, not written. -/
theorem forwardLayers_denseParams (t : Bool) :
    ∀ (ls : List Layer) (X : Mat) (rng : ℕ → ℚ) (c : ℕ),
      denseParamsOf (forwardLayers ls X t rng c).1 = denseParamsOf ls := by
  intro ls
  induction ls with
  | nil => intro X rng c; rfl
  | cons l ls ih =>
    intro X rng c
    cases l with
    | dense d =>
      simp [forwardLayers, Layer.forward, DenseLayer.forward_pass,
        denseParamsOf_cons_dense, ih]
    | dropout dl =>
      cases t <;>
        simp [forwardLayers, Layer.forward, DropoutLayer.forward_pass,
          denseParamsOf_cons_dropout, ih]

/-- An inference-mode (`training = false`) forward pass changes nothing
but the Dense input caches, and running it a second time from the state
it produced changes nothing at all and returns the same output. -/
theorem forwardLayers_inference_stable :
    ∀ (ls : List Layer) (X : Mat) (rng : ℕ → ℚ) (c : ℕ),
      (forwardLayers ls X false rng c).1.map Layer.clearCache = ls.map Layer.clearCache ∧
      forwardLayers (forwardLayers ls X false rng c).1 X false rng c =
        forwardLayers ls X false rng c := by
  intro ls
  induction ls with
  | nil => intro X rng c; exact ⟨rfl, rfl⟩
  | cons l ls ih =>
    intro X rng c
    cases l with
    | dense d =>
      have ih2 := ih (d.act (matAddRow (matMul X d.W) d.wb)) rng c
      refine ⟨?_, ?_⟩ <;>
        simp [forwardLayers, Layer.forward, DenseLayer.forward_pass, DenseLayer.preAct,
          Layer.clearCache, ih2.1, ih2.2]
    | dropout dl =>
      have ih2 := ih (matScale (1 - dl.p) X) rng c
      refine ⟨?_, ?_⟩ <;>
        simp [forwardLayers, Layer.forward, DropoutLayer.forward_pass, Layer.clearCache,
          ih2.1, ih2.2]

/-- Claim C4 (amended): `predict` never updates parameters and is
reproducible — every Dense layer's `(W, wb)` pair is unchanged, all
layer state outside the Dense input caches is unchanged, and calling
`predict` again on the network it returned, with the same input, yields
the identical result and leaves the network fixed.  (The claim's "no
state mutation whatsoever" is refuted separately: the input caches are
overwritten.) -/
theorem c4_predict_frame (net : MLP) (X : Mat) (rng : ℕ → ℚ) (c : ℕ) :
    denseParamsOf (net.predict X rng c).1.layers = denseParamsOf net.layers ∧
    (net.predict X rng c).1.layers.map Layer.clearCache = net.layers.map Layer.clearCache ∧
    (net.predict X rng c).1.predict X rng c = net.predict X rng c := by
  have h := forwardLayers_inference_stable net.layers X rng c
  refine ⟨?_, ?_, ?_⟩
  · simpa [MLP.predict] using forwardLayers_denseParams false net.layers X rng c
  · simpa [MLP.predict] using h.1
  · simp [MLP.predict, h.2]

/-- The network of the C4 counterexample: a single Dense layer (the C5
scenario layer) with nothing cached yet. -/
def mlpC4 : MLP := ⟨1, 1, [Layer.dense denseC5], [], [], [[0]], [[0]]⟩

/-- Claim C4 is false as stated: `predict` does mutate layer state.  On a
freshly built single-Dense-layer network, the Dense layer's cached
`layer_input` is `None` before `predict` and `[[1, 2]]` after, so the
network after `predict` differs from the network before. -/
theorem c4_predict_mutates_cache : (mlpC4.predict [[1, 2]] rng0 0).1 ≠ mlpC4 := by
  intro h
  have h2 := congrArg (fun n => denseCaches n.layers) h
  norm_num [MLP.predict, forwardLayers, Layer.forward, DenseLayer.forward_pass,
    denseCaches, mlpC4, denseC5, List.filterMap_cons] at h2
  exact Option.noConfusion h2

/-- An identity-shaped loss strategy (`loss(y, y_pred) = y_pred`), a
concrete instance of the external loss contract for concrete runs. -/
def lossId : Mat → Mat → Mat := fun _ yp => yp

/-- The identity shuffling collaborator (a permutation like any other). -/
def shuffleId : Mat → Mat → Mat × Mat := fun X y => (X, y)

/-- A concrete one-hot conversion for single-class label sets: every
label becomes the row `[1]`. -/
def oneHot0 : List ℤ → Mat := fun ys => ys.map (fun _ => [1])

/-- Claim C2 (amended): the per-epoch validation step never updates any
parameter — every Dense `(W, wb)` pair is preserved — but it runs the
forward pass with `training = true` (the source leaves `_forward_pass`'s
default), so its layer states are exactly those of a training-mode
forward pass on `X_val`. -/
theorem c2_validation_updates_nothing_but_runs_training_mode (net : MLP)
    (lossFn : Mat → Mat → Mat) (rng : ℕ → ℚ) (c : ℕ) :
    denseParamsOf (net.validationStep lossFn rng c).1.layers = denseParamsOf net.layers ∧
    (matAny net.X_val = true →
      (net.validationStep lossFn rng c).1.layers =
        (forwardLayers net.layers net.X_val true rng c).1) := by
  constructor
  · by_cases h : matAny net.X_val = true
    · simp [MLP.validationStep, h, forwardLayers_denseParams]
    · simp [MLP.validationStep, h]
  · intro h
    simp [MLP.validationStep, h]

/-- The network state just before the validation step of the C2 run: one
Dropout layer with `p = 1/2` whose cached mask from the last training
batch is `[[1, 1]]`, with validation inputs `[[5, 5]]`. -/
def mlpC2pre : MLP := ⟨1, 1, [Layer.dropout ⟨1 / 2, some [[1, 1]]⟩], [1], [], [[5, 5]], [[1]]⟩

/-- Witness for the amended C2 at `mlpC2pre`. -/
theorem c2_validation_witness :
    matAny mlpC2pre.X_val = true ∧
    (denseParamsOf (mlpC2pre.validationStep lossId rng0 0).1.layers =
        denseParamsOf mlpC2pre.layers ∧
      (mlpC2pre.validationStep lossId rng0 0).1.layers =
        (forwardLayers mlpC2pre.layers mlpC2pre.X_val true rng0 0).1) :=
  ⟨by norm_num [mlpC2pre, matAny],
    (c2_validation_updates_nothing_but_runs_training_mode mlpC2pre lossId rng0 0).1,
    (c2_validation_updates_nothing_but_runs_training_mode mlpC2pre lossId rng0 0).2
      (by norm_num [mlpC2pre, matAny])⟩

/-- The C2 counterexample network: one Dropout layer with `p = 1/2`, no
mask drawn yet, validation data `X_val = [[5, 5]]`, `y_val = [[1]]`. -/
def mlpC2 : MLP := ⟨1, 1, [Layer.dropout ⟨1 / 2, none⟩], [], [], [[5, 5]], [[1]]⟩

/-- The random stream of the C2 run: the first two draws (consumed by the
training batch) keep every unit, the next two (consumed by the validation
pass) drop every unit. -/
def rngC2 : ℕ → ℚ := fun n => if n < 2 then 1 else 0

/-- Claim C2 is false as stated: during `fit` the validation forward pass
runs with `training = true` and does draw and cache a Dropout mask.  In
the concrete one-epoch run the training batch leaves the cached mask
`[[1, 1]]`, yet after `fit` the cached mask is `[[0, 0]]` — freshly drawn
by the validation pass from the later random values.  The source's
validation step applied to the pre-validation state caches `[[0, 0]]`,
while the specification's `training = false` validation step leaves the
mask `[[1, 1]]` untouched. -/
theorem c2_validation_draws_mask :
    (mlpC2.fit [[1, 1]] [0] oneHot0 lossId lossId shuffleId rngC2).map
        (fun n => dropoutMasks n.layers) = .ok [some [[0, 0]]] ∧
    dropoutMasks (mlpC2pre.validationStep lossId rng0 0).1.layers = [some [[0, 0]]] ∧
    dropoutMasks (mlpC2pre.validationStepSpec lossId rng0 0).1.layers = [some [[1, 1]]] := by
  refine ⟨?_, ?_, ?_⟩
  · norm_num [MLP.fit, MLP.fitLoop, MLP.runEpoch, MLP.processBatches, MLP.processBatch,
      MLP.validationStep, forwardLayers, Layer.forward, DropoutLayer.forward_pass,
      backwardLayers, Layer.backward, DropoutLayer.backward_pass, drawMask, matHadamard,
      matScale, matMean, matAny, selectRows, fitSplits, arraySplit, splitSizes, chunksBy,
      lossId, oneHot0, shuffleId, rngC2, mlpC2, dropoutMasks, List.filterMap_cons,
      List.range_succ, Except.map]
  · norm_num [MLP.validationStep, forwardLayers, Layer.forward, DropoutLayer.forward_pass,
      drawMask, matHadamard, matMean, matAny, lossId, rng0, mlpC2pre, dropoutMasks,
      List.filterMap_cons, List.range_succ]
  · norm_num [MLP.validationStepSpec, forwardLayers, Layer.forward,
      DropoutLayer.forward_pass, matScale, matMean, matAny, lossId, rng0, mlpC2pre,
      dropoutMasks, List.filterMap_cons]

/-- A mini-batch step only rewrites the layer list: the error histories
and validation data are untouched. -/
theorem processBatch_frame (net : MLP) (lf lg : Mat → Mat → Mat) (Xs ys : Mat)
    (idx : List ℕ) (rng : ℕ → ℚ) (c : ℕ) (a : ℚ) :
    (net.processBatch lf lg Xs ys idx rng c a).1.errors_validation = net.errors_validation ∧
    (net.processBatch lf lg Xs ys idx rng c a).1.X_val = net.X_val :=
  ⟨rfl, rfl⟩

/-- Folding mini-batch steps over an epoch's splits preserves the
validation history and validation data. -/
theorem processBatches_frame (lf lg : Mat → Mat → Mat) (Xs ys : Mat) (rng : ℕ → ℚ) :
    ∀ (idxs : List (List ℕ)) (net : MLP) (c : ℕ) (a : ℚ),
      (MLP.processBatches net lf lg Xs ys idxs rng c a).1.errors_validation =
        net.errors_validation ∧
      (MLP.processBatches net lf lg Xs ys idxs rng c a).1.X_val = net.X_val := by
  intro idxs
  induction idxs with
  | nil => intro net c a; exact ⟨rfl, rfl⟩
  | cons idx rest ih =>
    intro net c a
    refine ⟨?_, ?_⟩
    · exact ((ih _ _ _).1).trans rfl
    · exact ((ih _ _ _).2).trans rfl

/-- The validation step appends exactly one entry precisely when
`X_val.any()` holds, and preserves `X_val` itself. -/
theorem validationStep_count (net : MLP) (lf : Mat → Mat → Mat) (rng : ℕ → ℚ) (c : ℕ) :
    (net.validationStep lf rng c).1.errors_validation.length =
      net.errors_validation.length + (if matAny net.X_val = true then 1 else 0) ∧
    (net.validationStep lf rng c).1.X_val = net.X_val := by
  by_cases h : matAny net.X_val = true <;> simp [MLP.validationStep, h]

/-- One epoch appends exactly one validation entry precisely when
`X_val.any()` holds, and preserves `X_val`. -/
theorem runEpoch_count (net : MLP) (lf lg : Mat → Mat → Mat) (sh : Mat → Mat → Mat × Mat)
    (Xb yb : Mat) (ns nb : ℕ) (rng : ℕ → ℚ) (c : ℕ) :
    (net.runEpoch lf lg sh Xb yb ns nb rng c).1.errors_validation.length =
      net.errors_validation.length + (if matAny net.X_val = true then 1 else 0) ∧
    (net.runEpoch lf lg sh Xb yb ns nb rng c).1.X_val = net.X_val := by
  have hpb := processBatches_frame lf lg (sh Xb yb).1 (sh Xb yb).2 rng
    (fitSplits ns nb) net c 0
  simp only [MLP.runEpoch]
  refine ⟨?_, ?_⟩
  · rw [(validationStep_count _ lf rng _).1]
    simp [hpb.1, hpb.2]
  · rw [(validationStep_count _ lf rng _).2]
    simp [hpb.2]

/-- With a positive batch count the epoch loop succeeds and appends one
validation entry per epoch exactly when `X_val.any()` holds. -/
theorem fitLoop_count (lf lg : Mat → Mat → Mat) (sh : Mat → Mat → Mat × Mat) (Xb yb : Mat)
    (ns nb : ℕ) (rng : ℕ → ℚ) (hnb : nb ≠ 0) :
    ∀ (k : ℕ) (net : MLP) (c : ℕ),
      ∃ p, MLP.fitLoop lf lg sh Xb yb ns nb rng k net c = .ok p ∧
        p.1.errors_validation.length =
          net.errors_validation.length + (if matAny net.X_val = true then k else 0) ∧
        p.1.X_val = net.X_val := by
  intro k
  induction k with
  | zero => intro net c; exact ⟨(net, c), rfl, by simp, rfl⟩
  | succ k ih =>
    intro net c
    obtain ⟨p, hp, hlen, hx⟩ :=
      ih (net.runEpoch lf lg sh Xb yb ns nb rng c).1 (net.runEpoch lf lg sh Xb yb ns nb rng c).2
    have hre := runEpoch_count net lf lg sh Xb yb ns nb rng c
    refine ⟨p, ?_, ?_, ?_⟩
    · simp only [MLP.fitLoop, if_neg hnb]
      exact hp
    · rw [hlen, hre.1, hre.2]
      by_cases h : matAny net.X_val = true <;> simp [h] <;> omega
    · rw [hx, hre.2]

/-- Claim C3 (amended): whenever `fit` completes normally, the number of
validation-loss entries it appends equals `n_iterations` when the stored
validation inputs contain a nonzero element (`X_val.any()`), and zero
otherwise — not "iff validation data was supplied": a supplied all-zero
validation set records nothing, and with no supplied validation set the
gate reads the uninitialized `np.empty([])` placeholder. -/
theorem c3_validation_history_count (net : MLP) (X : Mat) (y : List ℤ)
    (oneHot : List ℤ → Mat) (lf lg : Mat → Mat → Mat) (sh : Mat → Mat → Mat × Mat)
    (rng : ℕ → ℚ) (hbs : net.batch_size ≠ 0) (hnb : X.length / net.batch_size ≠ 0) :
    (net.fit X y oneHot lf lg sh rng).map (fun m => m.errors_validation.length) =
      .ok (net.errors_validation.length +
        (if matAny net.X_val = true then net.n_iterations else 0)) := by
  obtain ⟨p, hp, hlen, hx⟩ := fitLoop_count lf lg sh X (oneHot y) X.length
    (X.length / net.batch_size) rng hnb net.n_iterations net 0
  simp [MLP.fit, hbs, hp, hlen, Except.map]

/-- Witness for the amended C3: two epochs on a nonzero validation set
append exactly two validation entries. -/
theorem c3_validation_history_count_witness :
    (MLP.init 2 1 (some ([[7]], [0])) oneHot0 0).batch_size ≠ 0 ∧
    ([[1]] : Mat).length / (MLP.init 2 1 (some ([[7]], [0])) oneHot0 0).batch_size ≠ 0 ∧
    ((MLP.init 2 1 (some ([[7]], [0])) oneHot0 0).fit [[1]] [0] oneHot0 lossId lossId
        shuffleId rng0).map (fun m => m.errors_validation.length) =
      .ok ((MLP.init 2 1 (some ([[7]], [0])) oneHot0 0).errors_validation.length +
        (if matAny (MLP.init 2 1 (some ([[7]], [0])) oneHot0 0).X_val = true
          then (MLP.init 2 1 (some ([[7]], [0])) oneHot0 0).n_iterations else 0)) :=
  ⟨by decide, by decide,
    c3_validation_history_count (MLP.init 2 1 (some ([[7]], [0])) oneHot0 0) [[1]] [0]
      oneHot0 lossId lossId shuffleId rng0 (by decide) (by decide)⟩

/-- The C3 counterexample network: validation data supplied at
construction, but with all-zero validation inputs. -/
def mlpC3 : MLP := MLP.init 1 1 (some ([[0, 0]], [0])) oneHot0 0

/-- Claim C3 is false as stated: validation data was supplied at
construction (`X_val = [[0, 0]]`) and one epoch completes, yet no
validation entry is appended, because the per-epoch gate is
`X_val.any()` and every entry of `X_val` is zero. -/
theorem c3_supplied_zero_validation_skipped :
    mlpC3.X_val = [[0, 0]] ∧ mlpC3.n_iterations = 1 ∧
    (mlpC3.fit [[1]] [0] oneHot0 lossId lossId shuffleId rng0).map
      (fun m => m.errors_validation.length) = .ok 0 := by
  refine ⟨rfl, rfl, ?_⟩
  norm_num [MLP.fit, MLP.fitLoop, MLP.runEpoch, MLP.processBatches, MLP.processBatch,
    MLP.validationStep, forwardLayers, backwardLayers, matMean, matAny, selectRows,
    fitSplits, arraySplit, splitSizes, chunksBy, lossId, oneHot0, shuffleId, rng0,
    mlpC3, MLP.init, Except.map]

/-- The invalid-configuration error of the specification's error
taxonomy. -/
inductive ConfigError
  | invalidConfig
deriving DecidableEq

/-- Modelled from the spec: the construction-time validation the error
taxonomy requires for `DropoutLayer` — a dropout probability outside
`[0, 1)` is rejected with an invalid-configuration error.  No such check
exists in the source constructor; this definition exists only to compare
the requirement against `DropoutLayer.init`. -/
def DropoutLayer.initChecked (p : ℚ) : Except ConfigError DropoutLayer :=
  if 0 ≤ p ∧ p < 1 then .ok (DropoutLayer.init p) else .error .invalidConfig

/-- Modelled from the spec: the construction-time validation the error
taxonomy requires for `MultilayerPerceptron` — batch size ≤ 0 or a
non-positive iteration count is rejected with an invalid-configuration
error.  No such check exists in the source constructor. -/
def MLP.initChecked (n_iterations batch_size : ℕ) (vd : Option (Mat × List ℤ))
    (oneHot : List ℤ → Mat) (garbage : ℚ) : Except ConfigError MLP :=
  if 0 < batch_size ∧ 0 < n_iterations then
    .ok (MLP.init n_iterations batch_size vd oneHot garbage)
  else .error .invalidConfig

/-- Claim C7 is false as stated: nothing is detected or rejected at
construction.  `DropoutLayer.__init__` accepts `p = 2` (outside `[0,1)`)
and stores it — the spec-mandated check would reject it — and the
resulting layer even computes an inference forward pass, scaling by
`1 - 2 = -1`; `MultilayerPerceptron.__init__` likewise accepts and stores
`batch_size = 0`. -/
theorem c7_no_construction_time_validation :
    DropoutLayer.init 2 = ⟨2, none⟩ ∧
    DropoutLayer.initChecked 2 = .error .invalidConfig ∧
    ((DropoutLayer.init 2).forward_pass [[5]] false rng0 0).2.1 = [[-5]] ∧
    (MLP.init 3 0 none oneHot0 0).batch_size = 0 ∧
    MLP.initChecked 3 0 none oneHot0 0 = .error .invalidConfig := by
  refine ⟨rfl, ?_, ?_, rfl, ?_⟩
  · norm_num [DropoutLayer.initChecked]
  · norm_num [DropoutLayer.forward_pass, DropoutLayer.init, matScale]
  · norm_num [MLP.initChecked]

/-- Claim C7 (amended): the constructors store every configuration value
unchecked — any dropout probability and any batch size or iteration
count are accepted — and an invalid batch size only surfaces later: the
first `fit` call fails with the division error raised when computing
`n_samples / batch_size` with `batch_size = 0`. -/
theorem c7_unchecked_constructors_fail_late :
    (∀ p : ℚ, DropoutLayer.init p = ⟨p, none⟩) ∧
    (∀ (ni bs : ℕ) (vd : Option (Mat × List ℤ)) (oh : List ℤ → Mat) (g : ℚ),
      (MLP.init ni bs vd oh g).batch_size = bs ∧ (MLP.init ni bs vd oh g).n_iterations = ni) ∧
    (∀ (net : MLP) (X : Mat) (y : List ℤ) (oh : List ℤ → Mat) (lf lg : Mat → Mat → Mat)
        (sh : Mat → Mat → Mat × Mat) (rng : ℕ → ℚ),
      net.batch_size = 0 → net.fit X y oh lf lg sh rng = .error .zeroDivision) := by
  refine ⟨fun p => rfl, fun ni bs vd oh g => ?_, fun net X y oh lf lg sh rng h => ?_⟩
  · cases vd <;> exact ⟨rfl, rfl⟩
  · simp [MLP.fit, h]

/-- Witness for the amended C7: a network built with `batch_size = 0`
reaches `fit` and fails there with the division error. -/
theorem c7_unchecked_constructors_witness :
    (MLP.init 1 0 none oneHot0 0).batch_size = 0 ∧
    (MLP.init 1 0 none oneHot0 0).fit [[1]] [0] oneHot0 lossId lossId shuffleId rng0 =
      .error .zeroDivision :=
  ⟨rfl, c7_unchecked_constructors_fail_late.2.2 (MLP.init 1 0 none oneHot0 0) [[1]] [0]
    oneHot0 lossId lossId shuffleId rng0 rfl⟩

/-- Claim C10 is false as stated: with `n_iterations = 0` the epoch loop
body never runs, so even with `0 < n_samples < batch_size` the index
partition is never evaluated and `fit` returns normally instead of
failing. -/
theorem c10_zero_iterations_do_not_fail :
    0 < ([[1]] : Mat).length ∧
    ([[1]] : Mat).length < (MLP.init 0 2 none oneHot0 0).batch_size ∧
    (MLP.init 0 2 none oneHot0 0).fit [[1]] [0] oneHot0 lossId lossId shuffleId rng0 =
      .ok (MLP.init 0 2 none oneHot0 0) := by
  exact ⟨by decide, by decide, rfl⟩

/-- Claim C10 (amended): with at least one training iteration and
`0 < n_samples < batch_size`, the batch count `n_samples / batch_size`
is zero and the first epoch fails at the zero-section index partition
(`np.array_split` with 0 sections raises), rather than training on a
single undersized batch; with zero iterations `fit` returns without
error. -/
theorem c10_undersized_training_set_fails (net : MLP) (X : Mat) (y : List ℤ)
    (oneHot : List ℤ → Mat) (lf lg : Mat → Mat → Mat) (sh : Mat → Mat → Mat × Mat)
    (rng : ℕ → ℚ) (hit : 1 ≤ net.n_iterations) (h0 : 0 < X.length)
    (hlt : X.length < net.batch_size) :
    net.fit X y oneHot lf lg sh rng = .error .arraySplitZeroSections := by
  have hbs : net.batch_size ≠ 0 := by omega
  have hnb : X.length / net.batch_size = 0 := Nat.div_eq_of_lt hlt
  obtain ⟨k, hk⟩ : ∃ k, net.n_iterations = k + 1 := ⟨net.n_iterations - 1, by omega⟩
  simp [MLP.fit, hbs, hk, hnb, MLP.fitLoop, Except.map]

/-- Witness for the amended C10: one iteration, one sample, batch size
two — `fit` fails with the zero-section partition error. -/
theorem c10_undersized_training_set_witness :
    1 ≤ (MLP.init 1 2 none oneHot0 0).n_iterations ∧ 0 < ([[1]] : Mat).length ∧
    ([[1]] : Mat).length < (MLP.init 1 2 none oneHot0 0).batch_size ∧
    (MLP.init 1 2 none oneHot0 0).fit [[1]] [0] oneHot0 lossId lossId shuffleId rng0 =
      .error .arraySplitZeroSections :=
  ⟨by decide, by decide, by decide,
    c10_undersized_training_set_fails (MLP.init 1 2 none oneHot0 0) [[1]] [0] oneHot0
      lossId lossId shuffleId rng0 (by decide) (by decide) (by decide)⟩

/-- Elementwise vector difference (`a - b` on 1-D arrays). -/
def vecSub (a b : List ℚ) : List ℚ := List.zipWith (· - ·) a b

/-- Scalar times vector (`np.multiply(c, v)`). -/
def vecScale (c : ℚ) (v : List ℚ) : List ℚ := v.map (fun x => c * x)

/-- `np.zeros(np.shape(y))` for a 1-D `y`. -/
def zerosLike (v : List ℚ) : List ℚ := v.map (fun _ => 0)

/-- The gradient-boosting ensemble (`GradientBoostingRegressor`) over an
abstract regression-tree type `T` — the tree implementation is the
external collaborator, supplied as `treeFit`/`treePredict` operations. -/
structure GBRModel (T : Type) where
  n_estimators : ℕ
  learning_rate : ℚ
  trees : List T

/-- `GradientBoostingRegressor.__init__`: builds `n_estimators`
identically configured trees. -/
def GBRModel.init (T : Type) (n_estimators : ℕ) (learning_rate : ℚ) (mkTree : T) :
    GBRModel T :=
  ⟨n_estimators, learning_rate, List.replicate n_estimators mkTree⟩

/-- The sequential loop of `GradientBoostingRegressor.fit`: for each tree
in turn, residuals are `-(y - y_pred)`, the tree is fit on them, and
`learning_rate * tree_prediction` is subtracted from the running
prediction. -/
def gbrFitGo {T : Type} (lr : ℚ) (treeFit : T → Mat → List ℚ → T)
    (treePredict : T → Mat → List ℚ) (X : Mat) (y : List ℚ) :
    List T → List ℚ → List T
  | [], _ => []
  | t :: ts, y_pred =>
    let residuals := vecSub y_pred y
    let t2 := treeFit t X residuals
    let residual_pred := treePredict t2 X
    t2 :: gbrFitGo lr treeFit treePredict X y ts (vecSub y_pred (vecScale lr residual_pred))

/-- `GradientBoostingRegressor.fit`: starts the prediction at zero and
runs the sequential boosting loop over the trees. -/
def GBRModel.fit {T : Type} (g : GBRModel T) (treeFit : T → Mat → List ℚ → T)
    (treePredict : T → Mat → List ℚ) (X : Mat) (y : List ℚ) : GBRModel T :=
  { g with trees := gbrFitGo g.learning_rate treeFit treePredict X y g.trees (zerosLike y) }

/-- `GradientBoostingRegressor.predict`: starts from
`np.zeros(np.shape(X)[0])` and subtracts `learning_rate * tree.predict(X)`
for each tree in turn. -/
def GBRModel.predict {T : Type} (g : GBRModel T) (treePredict : T → Mat → List ℚ)
    (X : Mat) : List ℚ :=
  g.trees.foldl
    (fun y_pred t => vecSub y_pred (vecScale g.learning_rate (treePredict t X)))
    (List.replicate X.length 0)

/-- Claim C9: `fit` starts from the all-zero prediction and per tree fits
on residuals `prediction − target` and subtracts
`learning_rate × tree_prediction` from the running prediction — shown by
the exact trees produced for a two-tree ensemble: the first tree is fit
on `0 − y`, the second on `(0 − lr·p₁) − y` where `p₁` is the first
fitted tree's prediction; `predict` repeats the subtraction accumulation
from zero without fitting; and with `n_estimators = 0` the fitted
regressor predicts the all-zero vector for every input. -/
theorem c9_gbr_boosting_accumulation :
    (∀ (T : Type) (lr : ℚ) (mk : T) (tf : T → Mat → List ℚ → T) (tp : T → Mat → List ℚ)
        (X : Mat) (y : List ℚ) (X2 : Mat),
      ((GBRModel.init T 0 lr mk).fit tf tp X y).predict tp X2 =
        List.replicate X2.length 0) ∧
    (∀ (T : Type) (lr : ℚ) (t1 t2 : T) (tf : T → Mat → List ℚ → T)
        (tp : T → Mat → List ℚ) (X : Mat) (y : List ℚ),
      ((⟨2, lr, [t1, t2]⟩ : GBRModel T).fit tf tp X y).trees =
        [tf t1 X (vecSub (zerosLike y) y),
          tf t2 X
            (vecSub
              (vecSub (zerosLike y) (vecScale lr (tp (tf t1 X (vecSub (zerosLike y) y)) X)))
              y)]) ∧
    (∀ (T : Type) (lr : ℚ) (t1 : T) (tp : T → Mat → List ℚ) (X : Mat),
      (⟨1, lr, [t1]⟩ : GBRModel T).predict tp X =
        vecSub (List.replicate X.length 0) (vecScale lr (tp t1 X))) :=
  ⟨fun T lr mk tf tp X y X2 => rfl, fun T lr t1 t2 tf tp X y => rfl,
    fun T lr t1 tp X => rfl⟩
